import Mathlib

/-!
Shallow embedding of the SeqLib alignment-record core
(src/src/SeqLib/BamRecord.h) and the htslib macros/constants it uses,
together with theorems checking the natural-language specification
against this code.

Machine integers are modelled as `Nat` (unsigned fields, cigar words,
flags) and `Int` (the `int32_t` positions and return values).  A packed
cigar word is a `Nat` below `2^32`; the record's `bam1_t` buffer is
modelled field-by-field (core fields, cigar words, quality bytes, the
aux-tag region as an ordered entry list, and the total byte length
`l_data`).  The `shared_ptr<bam1_t> b` member, which may be null for an
empty record, is an `Option bam1_t`.
-/

set_option autoImplicit false

namespace SeqLib

/-! ### htslib flag constants (htslib/sam.h) -/

def BAM_FPAIRED : Nat := 1
def BAM_FPROPER_PAIR : Nat := 2
def BAM_FUNMAP : Nat := 4
def BAM_FMUNMAP : Nat := 8
def BAM_FREVERSE : Nat := 16
def BAM_FMREVERSE : Nat := 32
def BAM_FREAD1 : Nat := 64
def BAM_FREAD2 : Nat := 128
def BAM_FSECONDARY : Nat := 256
def BAM_FQCFAIL : Nat := 512
def BAM_FDUP : Nat := 1024

/-! ### htslib cigar macros (htslib/sam.h)

`#define BAM_CIGAR_STR "MIDNSHP=XB"`, `#define BAM_CIGAR_MASK 0xf`,
`#define BAM_CIGAR_TYPE 0x3C1A7`,
`#define bam_cigar_op(c) ((c)&BAM_CIGAR_MASK)`,
`#define bam_cigar_oplen(c) ((c)>>BAM_CIGAR_SHIFT)` with shift 4,
`#define bam_cigar_opchr(c) (BAM_CIGAR_STR "??????" [bam_cigar_op(c)])`,
`#define bam_cigar_type(o) (BAM_CIGAR_TYPE>>((o)<<1)&3)`. -/

def BAM_CIGAR_MASK : Nat := 0xf
def BAM_CIGAR_SHIFT : Nat := 4
def BAM_CIGAR_TYPE : Nat := 0x3C1A7

/-- Kind codes of the fixed alphabet `MIDNSHP=XB`, in order 0..9. -/
def BAM_CMATCH : Nat := 0
def BAM_CINS : Nat := 1
def BAM_CDEL : Nat := 2
def BAM_CREF_SKIP : Nat := 3
def BAM_CSOFT_CLIP : Nat := 4
def BAM_CHARD_CLIP : Nat := 5
def BAM_CPAD : Nat := 6
def BAM_CEQUAL : Nat := 7
def BAM_CDIFF : Nat := 8
def BAM_CBACK : Nat := 9

def bam_cigar_op (c : Nat) : Nat := c &&& BAM_CIGAR_MASK

def bam_cigar_oplen (c : Nat) : Nat := c >>> BAM_CIGAR_SHIFT

/-- The 16-character lookup array `BAM_CIGAR_STR "??????"`. -/
def bamCigarStrPadded : List Char := "MIDNSHP=XB??????".toList

def bam_cigar_opchr (c : Nat) : Char := bamCigarStrPadded.getD (bam_cigar_op c) '?'

def bam_cigar_type (o : Nat) : Nat := (BAM_CIGAR_TYPE >>> (o <<< 1)) &&& 3

/-! ### CigarField and Cigar (BamRecord.h lines 51-148) -/

/-- `CigarField`: one cigar op in the compact 32-bit form
(`uint32_t data`; first 4 bits hold the op, last 28 the length).
The constructor `CigarField(uint32_t f) : data(f)` is `CigarField.mk`. -/
structure CigarField where
  data : Nat
deriving Repr, DecidableEq

/-- `inline uint32_t raw() const { return data; }` -/
def CigarField.raw (c : CigarField) : Nat := c.data

/-- `inline uint8_t RawType() const { return bam_cigar_op(data); }` -/
def CigarField.RawType (c : CigarField) : Nat := bam_cigar_op c.data

/-- `inline uint32_t Length() const { return bam_cigar_oplen(data); }` -/
def CigarField.Length (c : CigarField) : Nat := bam_cigar_oplen c.data

/-- `inline bool ConsumesReference() const { return bam_cigar_type(bam_cigar_op(data))&2; }` -/
def CigarField.ConsumesReference (c : CigarField) : Bool :=
  (bam_cigar_type (bam_cigar_op c.data)) &&& 2 ≠ 0

/-- `inline bool ConsumesQuery() const { return bam_cigar_type(bam_cigar_op(data))&1; }` -/
def CigarField.ConsumesQuery (c : CigarField) : Bool :=
  (bam_cigar_type (bam_cigar_op c.data)) &&& 1 ≠ 0

/-- `Cigar`: a vector of `CigarField` (member `m_data`). -/
structure Cigar where
  m_data : List CigarField
deriving Repr, DecidableEq

/-- `void add(const CigarField& c) { m_data.push_back(c); }` -/
def Cigar.add (cg : Cigar) (c : CigarField) : Cigar := ⟨cg.m_data ++ [c]⟩

/-- `size_t size() const { return m_data.size(); }` -/
def Cigar.size (cg : Cigar) : Nat := cg.m_data.length

/-! ### The bam1_t buffer model (htslib/sam.h struct, as used by BamRecord) -/

/-- The `bam1_core_t` fields the source reads or writes.  `tid`, `pos`,
`mtid`, `mpos`, `isize` are `int32_t`; `flag` is `uint16_t`; `qual`
(mapping quality) is `uint8_t`; `l_qname` counts name bytes and
`l_qseq` query bases (`int32_t`, non-negative in any valid record). -/
structure bam1_core_t where
  tid : Int
  pos : Int
  mtid : Int
  mpos : Int
  flag : Nat
  qual : Nat
  l_qname : Nat
  l_qseq : Nat
  isize : Int
deriving Repr, DecidableEq

/-- Payload of one aux-tag entry: an integer (`'i'`-typed) or a string
(`'Z'`-typed) value. -/
inductive AuxVal where
  | i : Int → AuxVal
  | Z : String → AuxVal
deriving Repr, DecidableEq

/-- The `bam1_t` struct: core fields plus the variable-length `data`
buffer, viewed through its typed sub-regions.  `cigar` is the packed
cigar-word array (`bam_get_cigar`, one 32-bit word per op;
`core.n_cigar` equals `cigar.length`, exposed as `n_cigar` below);
`qual` is the per-base quality-byte region (`bam_get_qual`); `aux` is
the tag region as its ordered entry list (2-character key plus typed
payload); `l_data` is the used byte length of the whole buffer. -/
structure bam1_t where
  core : bam1_core_t
  cigar : List Nat
  qual : List Nat
  aux : List (String × AuxVal)
  l_data : Nat
deriving Repr, DecidableEq

/-- `b->core.n_cigar`: the op count, kept equal to the cigar array
length by every htslib record constructor. -/
def bam1_t.n_cigar (t : bam1_t) : Nat := t.cigar.length

/-! ### BamRecord (BamRecord.h lines 158-701)

The only member is `std::shared_ptr<bam1_t> b`, null for an empty
record. -/

structure BamRecord where
  b : Option bam1_t
deriving Repr, DecidableEq

namespace BamRecord

/-- `bool isEmpty() const { return !b; }` -/
def isEmpty (r : BamRecord) : Bool := r.b.isNone

/-- `return b ? ((b->core.flag&BAM_FREVERSE) != 0) : false;` -/
def ReverseFlag (r : BamRecord) : Bool :=
  match r.b with
  | some t => t.core.flag &&& BAM_FREVERSE ≠ 0
  | none => false

/-- `return b ? ((b->core.flag&BAM_FMREVERSE) != 0) : false;` -/
def MateReverseFlag (r : BamRecord) : Bool :=
  match r.b with
  | some t => t.core.flag &&& BAM_FMREVERSE ≠ 0
  | none => false

/-- `return b ? ((b->core.flag&BAM_FDUP) != 0) : false;` -/
def DuplicateFlag (r : BamRecord) : Bool :=
  match r.b with
  | some t => t.core.flag &&& BAM_FDUP ≠ 0
  | none => false

/-- `return b ? ((b->core.flag&BAM_FSECONDARY) != 0) : false;` -/
def SecondaryFlag (r : BamRecord) : Bool :=
  match r.b with
  | some t => t.core.flag &&& BAM_FSECONDARY ≠ 0
  | none => false

/-- `return b ? ((b->core.flag&BAM_FPAIRED) != 0) : false;` -/
def PairedFlag (r : BamRecord) : Bool :=
  match r.b with
  | some t => t.core.flag &&& BAM_FPAIRED ≠ 0
  | none => false

/-- `return b ? ((b->core.flag&BAM_FQCFAIL) != 0) : false;` -/
def QCFailFlag (r : BamRecord) : Bool :=
  match r.b with
  | some t => t.core.flag &&& BAM_FQCFAIL ≠ 0
  | none => false

/-- `return b ? ((b->core.flag&BAM_FUNMAP) == 0) : false;` -/
def MappedFlag (r : BamRecord) : Bool :=
  match r.b with
  | some t => t.core.flag &&& BAM_FUNMAP = 0
  | none => false

/-- `return b ? ((b->core.flag&BAM_FMUNMAP) == 0) : false;` -/
def MateMappedFlag (r : BamRecord) : Bool :=
  match r.b with
  | some t => t.core.flag &&& BAM_FMUNMAP = 0
  | none => false

/-- `return b ? (!(b->core.flag&BAM_FMUNMAP) && !(b->core.flag&BAM_FUNMAP) && (b->core.flag&BAM_FPAIRED)) : false;` -/
def PairMappedFlag (r : BamRecord) : Bool :=
  match r.b with
  | some t =>
      t.core.flag &&& BAM_FMUNMAP = 0 && t.core.flag &&& BAM_FUNMAP = 0 &&
        t.core.flag &&& BAM_FPAIRED ≠ 0
  | none => false

/-- `return b ? (b->core.flag&BAM_FPROPER_PAIR) : false;` (the int
converts to `true` iff the bit is set) -/
def ProperPair (r : BamRecord) : Bool :=
  match r.b with
  | some t => t.core.flag &&& BAM_FPROPER_PAIR ≠ 0
  | none => false

/-- `return b ? b->core.tid != b->core.mtid && PairMappedFlag() : false;` -/
def Interchromosomal (r : BamRecord) : Bool :=
  match r.b with
  | some t => t.core.tid ≠ t.core.mtid && r.PairMappedFlag
  | none => false

/-- `return b ? b->core.pos : -1;` -/
def Position (r : BamRecord) : Int :=
  match r.b with
  | some t => t.core.pos
  | none => -1

/-- `return b ? b->core.mpos : -1;` -/
def MatePosition (r : BamRecord) : Int :=
  match r.b with
  | some t => t.core.mpos
  | none => -1

/-- `return b ? b->core.tid : -1;` -/
def ChrID (r : BamRecord) : Int :=
  match r.b with
  | some t => t.core.tid
  | none => -1

/-- `return b ? b->core.mtid : -1;` -/
def MateChrID (r : BamRecord) : Int :=
  match r.b with
  | some t => t.core.mtid
  | none => -1

/-- `return b ? b->core.qual : -1;` -/
def MapQuality (r : BamRecord) : Int :=
  match r.b with
  | some t => (t.core.qual : Int)
  | none => -1

/-- `return b ? b->core.n_cigar : -1;` -/
def CigarSize (r : BamRecord) : Int :=
  match r.b with
  | some t => (t.n_cigar : Int)
  | none => -1

/-- `return b->core.l_qseq;` (no null guard in the source; an empty
record would dereference null, so the model's `none` branch is a dead
default) -/
def Length (r : BamRecord) : Int :=
  match r.b with
  | some t => (t.core.l_qseq : Int)
  | none => 0

end BamRecord

/-! ### Orientation constants (BamRecord.h lines 37-41) -/

def FRORIENTATION : Int := 0
def FFORIENTATION : Int := 1
def RFORIENTATION : Int := 2
def RRORIENTATION : Int := 3
def UDORIENTATION : Int := 4

namespace BamRecord

/-- `PairOrientation` (BamRecord.h lines 214-228), evaluated exactly as
the source's if/else-if chain.  The final `assert(false)` — reached
only when no branch fires — is the `none` result. -/
def PairOrientation (r : BamRecord) : Option Int :=
  if !r.PairMappedFlag then
    some UDORIENTATION
  else if (!r.ReverseFlag && decide (r.Position ≤ r.MatePosition) && r.MateReverseFlag)
       || (r.ReverseFlag && decide (r.Position ≥ r.MatePosition) && !r.MateReverseFlag) then
    some FRORIENTATION
  else if !r.ReverseFlag && !r.MateReverseFlag then
    some FFORIENTATION
  else if r.ReverseFlag && r.MateReverseFlag then
    some RRORIENTATION
  else if (r.ReverseFlag && decide (r.Position < r.MatePosition) && !r.MateReverseFlag)
       || (!r.ReverseFlag && decide (r.Position > r.MatePosition) && r.MateReverseFlag) then
    some RFORIENTATION
  else
    none

/-- `ProperOrientation` (BamRecord.h lines 247-262): null and
cross-chromosome records give `false`; for `pos < mpos` the result is
`(flag&BAM_FREVERSE)==0 && (flag&BAM_FMREVERSE)!=0`; otherwise that
same condition selects `false`, anything else `true`. -/
def ProperOrientation (r : BamRecord) : Bool :=
  match r.b with
  | none => false
  | some t =>
      if t.core.tid ≠ t.core.mtid then false
      else if t.core.pos < t.core.mpos then
        (if t.core.flag &&& BAM_FREVERSE = 0 ∧ t.core.flag &&& BAM_FMREVERSE ≠ 0
         then true else false)
      else
        (if t.core.flag &&& BAM_FREVERSE = 0 ∧ t.core.flag &&& BAM_FMREVERSE ≠ 0
         then false else true)

end BamRecord

/-! ### Clip arithmetic (BamRecord.h lines 443-528) -/

/-- `bam_cigar_opchr(c) == 'S' || bam_cigar_opchr(c) == 'H'`: the test
every clip-scanning loop in the source performs on one cigar word. -/
def isClipWord (c : Nat) : Bool := bam_cigar_opchr c == 'S' || bam_cigar_opchr c == 'H'

/-- One clip-accumulating scan: add `bam_cigar_oplen` while the op is a
clip, `break` at the first non-clip op.  This is the loop body shared
by `AlignmentPosition`, `AlignmentEndPosition` and their `Reverse`
variants; the source runs it forward over `c[0..n_cigar)` or backward
over `c[n_cigar-1..0]`, which is the forward run over the reversed
word list. -/
def clipScan : List Nat → Nat
  | [] => 0
  | c :: rest => if isClipWord c then bam_cigar_oplen c + clipScan rest else 0

namespace bam1_t

/-- `AlignmentPositionReverse` (lines 443-453): backward scan,
returning the accumulated clip length `p`. -/
def AlignmentPositionReverse (t : bam1_t) : Int := (clipScan t.cigar.reverse : Int)

/-- `AlignmentEndPositionReverse` (lines 458-468): forward scan,
returning `b->core.l_qseq - p`. -/
def AlignmentEndPositionReverse (t : bam1_t) : Int :=
  (t.core.l_qseq : Int) - (clipScan t.cigar : Int)

/-- `AlignmentPosition` (lines 473-483): forward scan, returning the
accumulated clip length `p`. -/
def AlignmentPosition (t : bam1_t) : Int := (clipScan t.cigar : Int)

/-- `AlignmentEndPosition` (lines 487-497): backward scan, returning
`b->core.l_qseq - p`. -/
def AlignmentEndPosition (t : bam1_t) : Int :=
  (t.core.l_qseq : Int) - (clipScan t.cigar.reverse : Int)

/-- `NumSoftClip` (lines 500-507): sum `bam_cigar_oplen(c[i])` over all
ops with `bam_cigar_opchr(c[i]) == 'S'`. -/
def NumSoftClip (t : bam1_t) : Int :=
  ((t.cigar.foldl (fun p c => if bam_cigar_opchr c == 'S' then p + bam_cigar_oplen c else p) 0 : Nat) : Int)

/-- `NumHardClip` (lines 510-517): sum over all ops with
`bam_cigar_opchr(c[i]) == 'H'`. -/
def NumHardClip (t : bam1_t) : Int :=
  ((t.cigar.foldl (fun p c => if bam_cigar_opchr c == 'H' then p + bam_cigar_oplen c else p) 0 : Nat) : Int)

/-- `NumClip` (lines 521-528): sum over all ops with opchr `'S'` or `'H'`. -/
def NumClip (t : bam1_t) : Int :=
  ((t.cigar.foldl (fun p c => if isClipWord c then p + bam_cigar_oplen c else p) 0 : Nat) : Int)

end bam1_t

namespace BamRecord

/-- Record-level `AlignmentPosition`; the source dereferences `b` with
no null guard, so the `none` default is dead code for any defined
execution. -/
def AlignmentPosition (r : BamRecord) : Int :=
  match r.b with
  | some t => t.AlignmentPosition
  | none => 0

/-- Record-level `AlignmentEndPosition` (same null convention). -/
def AlignmentEndPosition (r : BamRecord) : Int :=
  match r.b with
  | some t => t.AlignmentEndPosition
  | none => 0

/-- Record-level `AlignmentPositionReverse` (same null convention). -/
def AlignmentPositionReverse (r : BamRecord) : Int :=
  match r.b with
  | some t => t.AlignmentPositionReverse
  | none => 0

/-- Record-level `AlignmentEndPositionReverse` (same null convention). -/
def AlignmentEndPositionReverse (r : BamRecord) : Int :=
  match r.b with
  | some t => t.AlignmentEndPositionReverse
  | none => 0

/-- Record-level `NumSoftClip` (same null convention). -/
def NumSoftClip (r : BamRecord) : Int :=
  match r.b with
  | some t => t.NumSoftClip
  | none => 0

/-- Record-level `NumHardClip` (same null convention). -/
def NumHardClip (r : BamRecord) : Int :=
  match r.b with
  | some t => t.NumHardClip
  | none => 0

/-- Record-level `NumClip` (same null convention). -/
def NumClip (r : BamRecord) : Int :=
  match r.b with
  | some t => t.NumClip
  | none => 0

end BamRecord

/-! ### Cigar text printing (BamRecord.h lines 590-596) -/

/-- The 10-character print alphabet `"MIDNSHP=XB"` indexed by
`c[k]&BAM_CIGAR_MASK` in `CigarString`.  Indexing past position 9 is
undefined in C; the model's `'?'` default never occurs for the kind
codes 0-9 produced by parsing. -/
def bamCigarStr : List Char := "MIDNSHP=XB".toList

/-- One loop iteration of `CigarString`:
`cig << bam_cigar_oplen(c[k]) << "MIDNSHP=XB"[c[k]&BAM_CIGAR_MASK]`. -/
def cigarOpText (c : Nat) : String :=
  toString (bam_cigar_oplen c) ++ (bamCigarStr.getD (c &&& BAM_CIGAR_MASK) '?').toString

/-- `CigarString` (lines 590-596) over the packed word array. -/
def bam1_t.CigarString (t : bam1_t) : String :=
  t.cigar.foldl (fun s c => s ++ cigarOpText c) ""

/-- The same per-op print formula applied to a standalone `Cigar`
(`operator<<(std::ostream&, const Cigar&)` is declared at line 136 and
defined outside src/; per spec §4.1 printing reproduces the canonical
text form using the fixed 10-character alphabet, exactly the
`CigarString` formula). -/
def Cigar.text (cg : Cigar) : String :=
  cg.m_data.foldl (fun s c => s ++ cigarOpText c.data) ""

/-! ### Cigar text parsing -/

/-- Numeric value of an accumulated digit run, one digit at a time
(`acc * 10 + digit`). -/
def digitVal (c : Char) : Nat := c.toNat - 48

/-- Kind code of a recognized kind character: its index in the fixed
alphabet `MIDNSHP=XB`, `none` for an unrecognized character. -/
def charToOp (c : Char) : Option Nat := bamCigarStr.findIdx? (fun d => d == c)

/-- Modelled from the spec: `cigarFromString` is declared at
BamRecord.h line 148 but its definition is not under src/.  Spec §4.1:
"Parsing a text form (e.g. `35M10I5M`) walks digit runs followed by
one recognized kind character; fails with a FormatError on an
unrecognized character or a digit run with no following kind
character."  `acc` is the running value of the current digit run and
`seen` whether it is non-empty; failure is `none`. -/
def parseCigarGo (acc : Nat) (seen : Bool) : List Char → Option (List CigarField)
  | [] => if seen then none else some []
  | c :: cs =>
      if c.isDigit then
        parseCigarGo (acc * 10 + digitVal c) true cs
      else
        match charToOp c with
        | none => none
        | some op =>
            if seen then
              (parseCigarGo 0 false cs).map (fun rest => CigarField.mk ((acc <<< 4) ||| op) :: rest)
            else
              none

/-- Modelled from the spec (see `parseCigarGo`): parse a whole cigar
text into a `Cigar`, packing each `(length, kind)` pair into the
32-bit word form used by `CigarField`. -/
def cigarFromString (cig : String) : Option Cigar :=
  (parseCigarGo 0 false cig.toList).map Cigar.mk

/-! ### Aux-tag region (htslib bam_aux_*, used by BamRecord.h lines 552-572)

`bam_aux_get`, `bam_aux2i` and `bam_aux_append` live in htslib, the
external dependency, not in this repository.  Modelled from the spec
(§4.4): the tag region is an ordered, append-only entry list; lookup
is a forward scan returning the first entry whose 2-character key
matches, null when absent; append adds one entry at the end of the
buffer (2 key bytes + 1 type byte + 4 value bytes for an `'i'` tag). -/

/-- Modelled from the spec: htslib `bam_aux_get` — forward scan for
the first entry with the given key, `NULL` (`none`) when absent. -/
def bam_aux_get (t : bam1_t) (tag : String) : Option AuxVal :=
  (t.aux.find? (fun e => e.1 == tag)).map (fun e => e.2)

/-- Modelled from the spec: htslib `bam_aux2i` — the integer payload
of an integer-typed entry; a non-integer entry yields 0. -/
def bam_aux2i : AuxVal → Int
  | .i v => v
  | .Z _ => 0

/-- Modelled from the spec: htslib `bam_aux_append(b, tag, 'i', 4, &val)`
— append one integer entry, growing the buffer by the 2 key bytes, 1
type byte and 4 payload bytes. -/
def bam_aux_append_i (t : bam1_t) (tag : String) (v : Int) : bam1_t :=
  { t with aux := t.aux ++ [(tag, AuxVal.i v)], l_data := t.l_data + 7 }

/-- `GetIntTag` (BamRecord.h lines 552-557): `bam_aux_get`, then 0
when the key is absent, else `bam_aux2i`. -/
def bam1_t.GetIntTag (t : bam1_t) (tag : String) : Int :=
  match bam_aux_get t tag with
  | none => 0
  | some p => bam_aux2i p

/-- `AddIntTag` (BamRecord.h lines 570-572): `bam_aux_append` with
type `'i'` and 4 payload bytes. -/
def bam1_t.AddIntTag (t : bam1_t) (tag : String) (v : Int) : bam1_t :=
  bam_aux_append_i t tag v

namespace BamRecord

/-- Record-level `GetIntTag`; the source calls `bam_aux_get(b.get(), …)`
with no null guard, so the `none` default is dead code. -/
def GetIntTag (r : BamRecord) (tag : String) : Int :=
  match r.b with
  | some t => t.GetIntTag tag
  | none => 0

/-- Record-level `AddIntTag` (same null convention; mutation through
the shared pointer is modelled as returning the updated record). -/
def AddIntTag (r : BamRecord) (tag : String) (v : Int) : BamRecord :=
  match r.b with
  | some t => ⟨some (t.AddIntTag tag v)⟩
  | none => r

end BamRecord

/-! ### RemoveAllTags (BamRecord.h lines 670-675) -/

/-- `RemoveAllTags`:
`size_t keep = (b->core.n_cigar<<2) + b->core.l_qname + ((b->core.l_qseq + 1)>>1) + b->core.l_qseq;`
then the buffer is reallocated to `keep` bytes (dropping the aux
region at its end) and `l_data = keep` (`m_data` tracks it). -/
def bam1_t.RemoveAllTags (t : bam1_t) : bam1_t :=
  let keep := (t.n_cigar <<< 2) + t.core.l_qname + ((t.core.l_qseq + 1) >>> 1) + t.core.l_qseq
  { t with aux := [], l_data := keep }

/-- Record-level `RemoveAllTags` (null dereference in C for an empty
record; dead `none` branch). -/
def BamRecord.RemoveAllTags (r : BamRecord) : BamRecord :=
  match r.b with
  | some t => ⟨some t.RemoveAllTags⟩
  | none => r

/-! ### PositionEnd (BamRecord.h line 283) and the htslib bam_endpos it calls -/

/-- Modelled from the spec: htslib `bam_cigar2rlen` — the total
reference-consuming length of a cigar word array. -/
def bam_cigar2rlen (l : List Nat) : Nat :=
  l.foldl (fun acc c => if bam_cigar_type (bam_cigar_op c) &&& 2 ≠ 0
                        then acc + bam_cigar_oplen c else acc) 0

/-- Modelled from the spec: htslib `bam_endpos` — `pos + reference
length` for a mapped record with a cigar, else `pos + 1`. -/
def bam_endpos (t : bam1_t) : Int :=
  if t.core.flag &&& BAM_FUNMAP = 0 ∧ t.n_cigar ≠ 0 then
    t.core.pos + (bam_cigar2rlen t.cigar : Int)
  else
    t.core.pos + 1

/-- `return b ? bam_endpos(b.get()) : -1;` -/
def BamRecord.PositionEnd (r : BamRecord) : Int :=
  match r.b with
  | some t => bam_endpos t
  | none => -1

/-! ### The §4.2 orientation table (written from the spec, for comparison) -/

/-- Written from the spec, §4.2, for comparison with
`BamRecord.PairOrientation`: the orientation table over the four
inputs own-reverse, mate-reverse, own-position, mate-position, rows in
the spec's order, restricted to PairMapped = true (the PairMapped =
false row is the theorem's hypothesis).  The fall-through value is the
"defensive-invariant violation" the spec declares unreachable. -/
def pairOrientationTable (rev mrev : Bool) (pos mpos : Int) : Int :=
  if !rev && mrev && decide (pos ≤ mpos) then FRORIENTATION
  else if rev && !mrev && decide (pos ≥ mpos) then FRORIENTATION
  else if !rev && !mrev then FFORIENTATION
  else if rev && mrev then RRORIENTATION
  else if rev && !mrev && decide (pos < mpos) then RFORIENTATION
  else if !rev && mrev && decide (pos > mpos) then RFORIENTATION
  else UDORIENTATION

/-! ### Concrete records used by the examples and witnesses -/

/-- Packed word for `10S`: length 10, kind code 4. -/
def w10S : Nat := (10 <<< 4) ||| 4

/-- Packed word for `80M`: length 80, kind code 0. -/
def w80M : Nat := (80 <<< 4) ||| 0

/-- Packed word for `5H`: length 5, kind code 5. -/
def w5H : Nat := (5 <<< 4) ||| 5

/-- The §8 example record: query length 100, cigar `10S80M10S`. -/
def c4rec : bam1_t :=
  { core := { tid := 0, pos := 0, mtid := 0, mpos := 0, flag := 0, qual := 0,
              l_qname := 5, l_qseq := 100, isize := 0 },
    cigar := [w10S, w80M, w10S], qual := [], aux := [], l_data := 167 }

/-- The §8 example record wrapped as a non-empty `BamRecord`. -/
def c4bam : BamRecord := ⟨some c4rec⟩

/-! ### Helper lemmas -/

/-- The clip-accumulating scan is the oplen-sum of the maximal clip
run at the scanned end: accumulate while the op is a clip, stop at the
first non-clip op. -/
theorem clipScan_eq_takeWhile (l : List Nat) :
    clipScan l = ((l.takeWhile isClipWord).map bam_cigar_oplen).sum := by
  induction l with
  | nil => rfl
  | cons c rest ih =>
      by_cases h : isClipWord c
      · simp [clipScan, List.takeWhile_cons, h, ih]
      · simp [clipScan, List.takeWhile_cons, h]

/-- A conditional-accumulation loop is the accumulator plus the
oplen-sum over the ops passing the test. -/
theorem foldl_filter_sum (p : Nat → Bool) (l : List Nat) (a : Nat) :
    l.foldl (fun acc c => if p c then acc + bam_cigar_oplen c else acc) a
      = a + ((l.filter p).map bam_cigar_oplen).sum := by
  induction l generalizing a with
  | nil => simp
  | cons c rest ih =>
      simp only [List.foldl_cons, List.filter_cons]
      cases hp : p c
      · simp [ih]
      · simp [ih]
        omega

/-- The soft-clip sum and the hard-clip sum partition the clip sum. -/
theorem sum_filter_clip (l : List Nat) :
    ((l.filter (fun c => bam_cigar_opchr c == 'S')).map bam_cigar_oplen).sum
      + ((l.filter (fun c => bam_cigar_opchr c == 'H')).map bam_cigar_oplen).sum
    = ((l.filter isClipWord).map bam_cigar_oplen).sum := by
  induction l with
  | nil => rfl
  | cons c rest ih =>
      simp only [List.filter_cons]
      cases hS : bam_cigar_opchr c == 'S'
      · cases hH : bam_cigar_opchr c == 'H'
        · have hc : isClipWord c = false := by simp [isClipWord, hS, hH]
          simp [hc, ih]
        · have hc : isClipWord c = true := by simp [isClipWord, hH]
          simp [hc, ih]
          omega
      · have hSe : bam_cigar_opchr c = 'S' := by simpa using hS
        have hH : (bam_cigar_opchr c == 'H') = false := by simp [hSe]
        have hc : isClipWord c = true := by simp [isClipWord, hS]
        simp [hH, hc, ih]
        omega

/-! ### Claim theorems -/

/-- C3: after `RemoveAllTags` the buffer length is exactly 4 bytes per
cigar op + name length + ceil(query length / 2) packed-sequence bytes
+ query-length quality bytes, and it does not depend on the previous
aux-tag region or the previous buffer length. -/
theorem removeAllTags_recomputes_length (t : bam1_t)
    (aux' : List (String × AuxVal)) (ld' : Nat) :
    t.RemoveAllTags.l_data
        = 4 * t.n_cigar + t.core.l_qname + (t.core.l_qseq + 1) / 2 + t.core.l_qseq
    ∧ (bam1_t.RemoveAllTags { t with aux := aux', l_data := ld' }).l_data
        = t.RemoveAllTags.l_data := by
  unfold bam1_t.RemoveAllTags bam1_t.n_cigar
  simp only [Nat.shiftLeft_eq, Nat.shiftRight_eq_div_pow]
  constructor
  · norm_num
    ring_nf
  · trivial

/-- C4: for the query-length-100 record with cigar `10S80M10S`,
`AlignmentPosition` is 10 and `AlignmentEndPosition` is 90; in
general, each routine sums the clip oplens of the maximal clip run at
its end of the cigar (stopping at the first non-clip op). -/
theorem alignmentPosition_clip_offsets :
    c4bam.AlignmentPosition = 10 ∧ c4bam.AlignmentEndPosition = 90
    ∧ ∀ t : bam1_t,
        t.AlignmentPosition = (((t.cigar.takeWhile isClipWord).map bam_cigar_oplen).sum : Int)
        ∧ t.AlignmentEndPosition
            = (t.core.l_qseq : Int)
              - (((t.cigar.reverse.takeWhile isClipWord).map bam_cigar_oplen).sum : Int) := by
  refine ⟨by decide, by decide, fun t => ⟨?_, ?_⟩⟩
  · rw [bam1_t.AlignmentPosition, clipScan_eq_takeWhile]
  · rw [bam1_t.AlignmentEndPosition, clipScan_eq_takeWhile]

/-- C5: parsing `"35M10I5M"` and re-printing yields the identical
text, and printing draws its kind characters from the fixed alphabet
`MIDNSHP=XB` in that order, mapped to kind codes 0-9. -/
theorem cigar_text_roundtrip :
    (cigarFromString "35M10I5M").map Cigar.text = some "35M10I5M"
    ∧ bamCigarStr = ['M', 'I', 'D', 'N', 'S', 'H', 'P', '=', 'X', 'B']
    ∧ bamCigarStr.map charToOp = (List.range 10).map some := by
  refine ⟨by decide, by decide, by decide⟩

/-- C7: `NumSoftClip + NumHardClip = NumClip` for the cigar of any
(non-null) record, the three being whole-cigar sums. -/
theorem numClip_eq_soft_add_hard (r : BamRecord) (t : bam1_t) (hb : r.b = some t) :
    r.NumSoftClip + r.NumHardClip = r.NumClip := by
  simp only [BamRecord.NumSoftClip, BamRecord.NumHardClip, BamRecord.NumClip, hb]
  unfold bam1_t.NumSoftClip bam1_t.NumHardClip bam1_t.NumClip
  rw [← Nat.cast_add]
  rw [foldl_filter_sum, foldl_filter_sum, foldl_filter_sum]
  simp only [Nat.zero_add]
  rw [sum_filter_clip]

/-- The record with cigar `10S80M5H` used to witness C7. -/
def c7rec : BamRecord :=
  ⟨some { core := { tid := 0, pos := 0, mtid := 0, mpos := 0, flag := 0, qual := 0,
                    l_qname := 5, l_qseq := 90, isize := 0 },
          cigar := [w10S, w80M, w5H], qual := [], aux := [], l_data := 0 }⟩

/-- C7 witness: the clip-sum identity evaluated on the `10S80M5H` record. -/
theorem numClip_eq_soft_add_hard_witness :
    c7rec.NumSoftClip + c7rec.NumHardClip = c7rec.NumClip :=
  numClip_eq_soft_add_hard c7rec _ rfl

/-- C9: for any non-null record,
`AlignmentPositionReverse + AlignmentEndPosition = Length` and
`AlignmentPosition + AlignmentEndPositionReverse = Length`: each
end-position routine is the stored query length minus exactly the clip
sum its same-direction start-position routine accumulates. -/
theorem alignment_positions_sum_to_length (r : BamRecord) (t : bam1_t) (hb : r.b = some t) :
    r.AlignmentPositionReverse + r.AlignmentEndPosition = r.Length
    ∧ r.AlignmentPosition + r.AlignmentEndPositionReverse = r.Length := by
  simp only [BamRecord.AlignmentPositionReverse, BamRecord.AlignmentEndPosition,
    BamRecord.AlignmentPosition, BamRecord.AlignmentEndPositionReverse, BamRecord.Length, hb]
  unfold bam1_t.AlignmentPositionReverse bam1_t.AlignmentEndPosition
    bam1_t.AlignmentPosition bam1_t.AlignmentEndPositionReverse
  constructor <;> ring

/-- C9 witness: both identities evaluated on the `10S80M10S` record. -/
theorem alignment_positions_sum_to_length_witness :
    c4bam.AlignmentPositionReverse + c4bam.AlignmentEndPosition = c4bam.Length
    ∧ c4bam.AlignmentPosition + c4bam.AlignmentEndPositionReverse = c4bam.Length :=
  alignment_positions_sum_to_length c4bam c4rec rfl

/-- The default-constructed empty record (`BamRecord() {}`: null `b`). -/
def emptyRecord : BamRecord := ⟨none⟩

/-- C10: every null-guarded flag accessor of an empty record returns
`false`, and the guarded numeric accessors return -1, instead of
failing. -/
theorem empty_record_neutral_defaults (r : BamRecord) (h : r.isEmpty = true) :
    r.ReverseFlag = false ∧ r.MateReverseFlag = false ∧ r.DuplicateFlag = false
    ∧ r.SecondaryFlag = false ∧ r.PairedFlag = false ∧ r.QCFailFlag = false
    ∧ r.MappedFlag = false ∧ r.MateMappedFlag = false ∧ r.PairMappedFlag = false
    ∧ r.ProperPair = false ∧ r.Interchromosomal = false
    ∧ r.Position = -1 ∧ r.MatePosition = -1 ∧ r.PositionEnd = -1
    ∧ r.ChrID = -1 ∧ r.MateChrID = -1 ∧ r.MapQuality = -1 ∧ r.CigarSize = -1 := by
  have hb : r.b = none := by
    cases hbb : r.b with
    | none => rfl
    | some t => rw [BamRecord.isEmpty, hbb] at h; simp at h
  simp [BamRecord.ReverseFlag, BamRecord.MateReverseFlag, BamRecord.DuplicateFlag,
    BamRecord.SecondaryFlag, BamRecord.PairedFlag, BamRecord.QCFailFlag,
    BamRecord.MappedFlag, BamRecord.MateMappedFlag, BamRecord.PairMappedFlag,
    BamRecord.ProperPair, BamRecord.Interchromosomal, BamRecord.Position,
    BamRecord.MatePosition, BamRecord.PositionEnd, BamRecord.ChrID,
    BamRecord.MateChrID, BamRecord.MapQuality, BamRecord.CigarSize, hb]

/-- C1: whenever PairMapped is true, `PairOrientation` returns (does
not hit the fatal `assert(false)`) and its value is the §4.2 table's,
one of the four defined orientations, never `UDORIENTATION`. -/
theorem pairOrientation_total_on_mapped_pairs (r : BamRecord) (h : r.PairMappedFlag = true) :
    r.PairOrientation
        = some (pairOrientationTable r.ReverseFlag r.MateReverseFlag r.Position r.MatePosition)
    ∧ pairOrientationTable r.ReverseFlag r.MateReverseFlag r.Position r.MatePosition
        ∈ [FRORIENTATION, FFORIENTATION, RFORIENTATION, RRORIENTATION] := by
  unfold BamRecord.PairOrientation pairOrientationTable
  rw [h]
  generalize r.ReverseFlag = rv
  generalize r.MateReverseFlag = mv
  generalize r.Position = p
  generalize r.MatePosition = m
  rcases lt_trichotomy p m with hpm | hpm | hpm
  · have e1 : decide (p ≤ m) = true := by simp [hpm.le]
    have e2 : decide (p ≥ m) = false := by simp only [decide_eq_false_iff_not]; omega
    have e3 : decide (p < m) = true := by simp [hpm]
    have e4 : decide (p > m) = false := by simp only [decide_eq_false_iff_not]; omega
    simp only [e1, e2, e3, e4]
    cases rv <;> cases mv <;> decide
  · have e1 : decide (p ≤ m) = true := by simp [hpm]
    have e2 : decide (p ≥ m) = true := by simp [hpm]
    have e3 : decide (p < m) = false := by simp [hpm]
    have e4 : decide (p > m) = false := by simp [hpm]
    simp only [e1, e2, e3, e4]
    cases rv <;> cases mv <;> decide
  · have e1 : decide (p ≤ m) = false := by simp only [decide_eq_false_iff_not]; omega
    have e2 : decide (p ≥ m) = true := by simp only [decide_eq_true_eq]; omega
    have e3 : decide (p < m) = false := by simp only [decide_eq_false_iff_not]; omega
    have e4 : decide (p > m) = true := by simp only [decide_eq_true_eq]; omega
    simp only [e1, e2, e3, e4]
    cases rv <;> cases mv <;> decide

/-- The record used to witness C1: a mapped pair, forward read at 100
with a reverse mate at 200 (flag `0x21`). -/
def c1rec : BamRecord :=
  ⟨some { core := { tid := 0, pos := 100, mtid := 0, mpos := 200, flag := 33, qual := 0,
                    l_qname := 0, l_qseq := 0, isize := 0 },
          cigar := [], qual := [], aux := [], l_data := 0 }⟩

/-- C1 witness: the classification evaluated on a concrete mapped pair. -/
theorem pairOrientation_total_on_mapped_pairs_witness :
    c1rec.PairMappedFlag = true
    ∧ (c1rec.PairOrientation
          = some (pairOrientationTable c1rec.ReverseFlag c1rec.MateReverseFlag
                    c1rec.Position c1rec.MatePosition)
       ∧ pairOrientationTable c1rec.ReverseFlag c1rec.MateReverseFlag
            c1rec.Position c1rec.MatePosition
          ∈ [FRORIENTATION, FFORIENTATION, RFORIENTATION, RRORIENTATION]) :=
  ⟨by decide, pairOrientation_total_on_mapped_pairs c1rec (by decide)⟩

/-- The record refuting C2: a same-chromosome mapped pair (flag `0x1`:
paired, both reads forward) with own position 5 above mate position 3. -/
def c2rec : BamRecord :=
  ⟨some { core := { tid := 0, pos := 5, mtid := 0, mpos := 3, flag := 1, qual := 0,
                    l_qname := 0, l_qseq := 0, isize := 0 },
          cigar := [], qual := [], aux := [], l_data := 0 }⟩

/-- C2: on a same-chromosome pair whose higher-position read is on the
forward strand (both reads forward, pair orientation FF),
`ProperOrientation` returns `true`, although the claim (and the
function's own doc comment, "has proper orientation (FR)") requires
`false` unless the lower-position read is forward and the
higher-position read reverse. -/
theorem properOrientation_true_on_ff_pair :
    c2rec.ProperOrientation = true
    ∧ c2rec.ChrID = c2rec.MateChrID
    ∧ c2rec.Position > c2rec.MatePosition
    ∧ c2rec.ReverseFlag = false
    ∧ c2rec.MateReverseFlag = false
    ∧ c2rec.PairOrientation = some FFORIENTATION := by
  decide

/-- C6: `GetIntTag` of an absent key is 0 (not an error), and on a
record without the key, `AddIntTag` followed by `GetIntTag` returns
the added value. -/
theorem getIntTag_absent_default (r : BamRecord) (t : bam1_t) (tag : String) (v : Int)
    (hb : r.b = some t) (habs : bam_aux_get t tag = none) :
    r.GetIntTag tag = 0 ∧ (r.AddIntTag tag v).GetIntTag tag = v := by
  have hfind : t.aux.find? (fun e => e.1 == tag) = none := by
    unfold bam_aux_get at habs
    exact Option.map_eq_none'.mp habs
  constructor
  · simp [BamRecord.GetIntTag, hb, bam1_t.GetIntTag, habs]
  · simp [BamRecord.AddIntTag, BamRecord.GetIntTag, hb, bam1_t.AddIntTag,
      bam_aux_append_i, bam1_t.GetIntTag, bam_aux_get, List.find?_append, hfind,
      bam_aux2i, List.find?_cons_of_pos]

/-- The tagless record used to witness C6. -/
def c6t : bam1_t :=
  { core := { tid := 0, pos := 0, mtid := 0, mpos := 0, flag := 0, qual := 0,
              l_qname := 0, l_qseq := 0, isize := 0 },
    cigar := [], qual := [], aux := [], l_data := 0 }

/-- The tagless record wrapped as a `BamRecord`. -/
def c6rec : BamRecord := ⟨some c6t⟩

/-- C6 witness: `GetIntTag "XP"` is 0 on a record with no such tag and
7 after `AddIntTag "XP" 7`. -/
theorem getIntTag_absent_default_witness :
    c6rec.GetIntTag "XP" = 0 ∧ (c6rec.AddIntTag "XP" 7).GetIntTag "XP" = 7 :=
  getIntTag_absent_default c6rec c6t "XP" 7 rfl (by decide)

/-- Each cigar kind's consumes-reference / consumes-query bit agrees
with the fixed property tables of the spec, for every packed word. -/
theorem consumes_tables (c : CigarField) :
    (c.ConsumesReference = true
      ↔ c.RawType ∈ [BAM_CMATCH, BAM_CDEL, BAM_CREF_SKIP, BAM_CEQUAL, BAM_CDIFF])
    ∧ (c.ConsumesQuery = true
      ↔ c.RawType ∈ [BAM_CMATCH, BAM_CINS, BAM_CSOFT_CLIP, BAM_CEQUAL, BAM_CDIFF]) := by
  have hk : bam_cigar_op c.data < 16 := Nat.lt_succ_of_le Nat.and_le_right
  unfold CigarField.ConsumesReference CigarField.ConsumesQuery CigarField.RawType
  generalize bam_cigar_op c.data = k at hk ⊢
  revert k
  decide

/-- C8: a `CigarField` built from a 32-bit word exposes the low 4 bits
as `RawType` and the high 28 bits as `Length`, and the two consumes
properties hold exactly for the spec's kind sets. -/
theorem cigarField_packing (w : Nat) (h : w < 2 ^ 32) :
    (CigarField.mk w).RawType = w % 2 ^ 4
    ∧ (CigarField.mk w).Length = w / 2 ^ 4
    ∧ (CigarField.mk w).Length < 2 ^ 28
    ∧ ((CigarField.mk w).ConsumesReference = true
        ↔ (CigarField.mk w).RawType ∈ [BAM_CMATCH, BAM_CDEL, BAM_CREF_SKIP, BAM_CEQUAL, BAM_CDIFF])
    ∧ ((CigarField.mk w).ConsumesQuery = true
        ↔ (CigarField.mk w).RawType ∈ [BAM_CMATCH, BAM_CINS, BAM_CSOFT_CLIP, BAM_CEQUAL, BAM_CDIFF]) := by
  have hL : (CigarField.mk w).Length = w / 2 ^ 4 := Nat.shiftRight_eq_div_pow w 4
  refine ⟨Nat.and_pow_two_sub_one_eq_mod w 4, hL, ?_,
    (consumes_tables _).1, (consumes_tables _).2⟩
  rw [hL]
  norm_num at h ⊢
  omega

/-- C8 witness: the packing facts evaluated at the word `164` (`10S`). -/
theorem cigarField_packing_witness :
    (CigarField.mk 164).RawType = 164 % 2 ^ 4
    ∧ (CigarField.mk 164).Length = 164 / 2 ^ 4
    ∧ (CigarField.mk 164).Length < 2 ^ 28
    ∧ ((CigarField.mk 164).ConsumesReference = true
        ↔ (CigarField.mk 164).RawType ∈ [BAM_CMATCH, BAM_CDEL, BAM_CREF_SKIP, BAM_CEQUAL, BAM_CDIFF])
    ∧ ((CigarField.mk 164).ConsumesQuery = true
        ↔ (CigarField.mk 164).RawType ∈ [BAM_CMATCH, BAM_CINS, BAM_CSOFT_CLIP, BAM_CEQUAL, BAM_CDIFF]) :=
  cigarField_packing 164 (by norm_num)

/-- C10 witness: the defaults evaluated on the default-constructed
empty record. -/
theorem empty_record_neutral_defaults_witness :
    emptyRecord.ReverseFlag = false ∧ emptyRecord.MateReverseFlag = false
    ∧ emptyRecord.DuplicateFlag = false ∧ emptyRecord.SecondaryFlag = false
    ∧ emptyRecord.PairedFlag = false ∧ emptyRecord.QCFailFlag = false
    ∧ emptyRecord.MappedFlag = false ∧ emptyRecord.MateMappedFlag = false
    ∧ emptyRecord.PairMappedFlag = false ∧ emptyRecord.ProperPair = false
    ∧ emptyRecord.Interchromosomal = false ∧ emptyRecord.Position = -1
    ∧ emptyRecord.MatePosition = -1 ∧ emptyRecord.PositionEnd = -1
    ∧ emptyRecord.ChrID = -1 ∧ emptyRecord.MateChrID = -1
    ∧ emptyRecord.MapQuality = -1 ∧ emptyRecord.CigarSize = -1 :=
  empty_record_neutral_defaults emptyRecord rfl

end SeqLib
